import Mathlib

/-!
# Verification of the Jito searcher client (`src/searcher_client/src/lib.rs`)

A shallow embedding of the bundle-submission and confirmation code.
Machine time is modelled in whole milliseconds (`Nat`); the Rust `u64`
subtraction `time_left -= elapsed` is modelled with explicit wrapping
modulo `2^64`, matching release-mode semantics. Network collaborators
(the gRPC searcher service, the RPC status source, the result-event
stream) are modelled as explicit parameters: the stream is a list of
timed events followed by a tail behaviour, and the status source is a
function from signatures to RPC results.
-/

namespace SearcherClient

instance {α β : Type} [DecidableEq α] [DecidableEq β] : DecidableEq (Except α β) :=
  fun a b =>
    match a, b with
    | .ok x, .ok y => decidable_of_iff (x = y) (by simp)
    | .error x, .error y => decidable_of_iff (x = y) (by simp)
    | .ok _, .error _ => isFalse (by simp)
    | .error _, .ok _ => isFalse (by simp)

/-- A Solana signature (opaque identity; the code only copies and compares them). -/
abbrev Signature := String

/-- `solana_sdk::transaction::VersionedTransaction`, reduced to the field the
client reads: its signature list (`tx.signatures`). -/
structure VersionedTransaction where
  signatures : List Signature
deriving Repr, DecidableEq

/-- `bundle::rejected::Reason` — the oneof payload of a `Rejected` result.
The four recognized variants are those the client matches on.
`Unrecognized` — Modelled from the spec: the proto `Reason` oneof lives in the
external `jito_protos` crate (not under `src/`); the spec says an
"Unrecognized/empty variant" is possible and "ignored, waiting continues",
so one extra constructor stands for any variant outside the four. -/
inductive Reason where
  | StateAuctionBidRejected (auction_id : String) (simulated_bid_lamports : Nat) (msg : String)
  | WinningBatchBidRejected (auction_id : String) (simulated_bid_lamports : Nat) (msg : String)
  | SimulationFailure (tx_signature : String) (msg : Option String)
  | InternalError (msg : String)
  | Unrecognized
deriving Repr, DecidableEq

/-- `bundle::Rejected`: a message whose `reason` oneof may be absent. -/
structure Rejected where
  reason : Option Reason
deriving Repr, DecidableEq

/-- `bundle::bundle_result::Result` — the discriminated result payload.
`Other` stands for any payload variant the client's `_ => {}` arm catches. -/
inductive BundleResultType where
  | Accepted (slot : Nat) (validator_identity : String)
  | Rejected (rejected : Rejected)
  | Other
deriving Repr, DecidableEq

/-- `bundle::BundleResult`: the streamed message, whose `result` oneof may be absent. -/
structure BundleResult where
  result : Option BundleResultType
deriving Repr, DecidableEq

/-- `BundleRejectionError` — the typed error enum from `lib.rs` lines 48-58. -/
inductive BundleRejectionError where
  | StateAuctionBidRejected (auction_id : String) (tip_lamports : Nat)
  | WinningBatchBidRejected (auction_id : String) (tip_lamports : Nat)
  | SimulationFailure (tx_signature : String) (msg : Option String)
  | InternalError (msg : String)
deriving Repr, DecidableEq

/-- The inner `match rejected.reason` of the event loop (lines 142-173):
each of the four recognized reasons maps to the matching typed error
(dropping the `msg` field for the two auction rejections); `None` and any
unrecognized variant fall into the `_ => {}` arm, i.e. produce no resolution. -/
def mapRejectedReason : Option Reason → Option BundleRejectionError
  | some (.WinningBatchBidRejected auction_id simulated_bid_lamports _) =>
      some (.WinningBatchBidRejected auction_id simulated_bid_lamports)
  | some (.StateAuctionBidRejected auction_id simulated_bid_lamports _) =>
      some (.StateAuctionBidRejected auction_id simulated_bid_lamports)
  | some (.SimulationFailure tx_signature msg) =>
      some (.SimulationFailure tx_signature msg)
  | some (.InternalError msg) => some (.InternalError msg)
  | _ => none

/-- The outer `match results.result` of the event loop (lines 136-176):
`Accepted` is informational (no resolution), `Rejected` defers to its reason,
anything else (including an absent payload) produces no resolution. -/
def classifyResult : BundleResult → Option BundleRejectionError
  | { result := some (.Rejected rejected) } => mapRejectedReason rejected.reason
  | _ => none

/-- One item yielded by the result stream, with its timing:
`arrival` — milliseconds spent awaiting before this item is yielded;
`proc` — milliseconds the loop body spends processing it (the span measured
by `instant.elapsed()` at line 177);
`payload` — `Ok(BundleResult)` or `Err(Status)` (`.error ()`), the inner
result of `Streaming::next`. -/
structure TimedEvent where
  arrival : Nat
  proc : Nat
  payload : Except Unit BundleResult
deriving Repr, DecidableEq

/-- What the stream does after its listed events are exhausted:
stays silent forever, closes (`next()` yields `None`) after a delay, or
yields `Some(Err(status))` after a delay. -/
inductive StreamTail where
  | silent
  | closes (delay : Nat)
  | errs (delay : Nat)
deriving Repr, DecidableEq

/-- How the event loop ended: an early `return Err(rejection)` or a fall
through to the fallback status-query path. -/
inductive LoopExit where
  | rejected (e : BundleRejectionError)
  | fallback
deriving Repr, DecidableEq

/-- Modulus of the Rust `u64` arithmetic on `time_left`. -/
def u64Mod : Nat := 2 ^ 64

/-- Rust release-mode `a - b` on `u64`: wraps modulo `2^64` on underflow
(line 177, `time_left -= instant.elapsed().as_millis() as u64`). -/
def wrapSub64 (a b : Nat) : Nat := (a + (u64Mod - b % u64Mod)) % u64Mod

/-- Outcome of the `while let` loop of lines 128-178. -/
structure LoopResult where
  exit : LoopExit
  /-- total wall-clock milliseconds spent inside the loop -/
  elapsed : Nat
  /-- value of `time_left` when the loop ends -/
  timeLeft : Nat
deriving Repr, DecidableEq

/-- The event loop of `send_bundle_with_confirmation` (lines 127-178).
`timeLeft` is the Rust `time_left` in milliseconds. Each iteration awaits
the next stream item bounded by `timeout(Duration::from_millis(time_left), ..)`:
an item arriving later than `time_left` means the timeout fires and the loop
exits. The `while let Ok(Some(Ok(results)))` pattern also exits on a stream
error item or on stream close. On an `Ok` item, `Instant::now()` is taken
AFTER the item has arrived, so only the processing span `proc` — not the
awaiting span `arrival` — is subtracted (wrapping, as `u64`) from
`time_left` before the next iteration. A recognized rejection returns early. -/
def eventLoop (timeLeft : Nat) : List TimedEvent → StreamTail → LoopResult
  | [], tail =>
    match tail with
    | .silent => { exit := .fallback, elapsed := timeLeft, timeLeft := timeLeft }
    | .closes delay =>
        { exit := .fallback, elapsed := min delay timeLeft, timeLeft := timeLeft }
    | .errs delay =>
        { exit := .fallback, elapsed := min delay timeLeft, timeLeft := timeLeft }
  | ev :: rest, tail =>
    if ev.arrival ≤ timeLeft then
      match ev.payload with
      | .error _ => { exit := .fallback, elapsed := ev.arrival, timeLeft := timeLeft }
      | .ok results =>
        match classifyResult results with
        | some e =>
            { exit := .rejected e, elapsed := ev.arrival + ev.proc, timeLeft := timeLeft }
        | none =>
            let r := eventLoop (wrapSub64 timeLeft ev.proc) rest tail
            { r with elapsed := ev.arrival + ev.proc + r.elapsed }
    else { exit := .fallback, elapsed := timeLeft, timeLeft := timeLeft }

/-- The result of `rpc_client.get_signature_status_with_commitment`
(Rust type `Result<Option<Result<(), TransactionError>>, ClientError>`),
with the two error types opaque: `.error ()` — the RPC call errored;
`.ok none` — no status known; `.ok (some (.error ()))` — the transaction
landed with an error; `.ok (some (.ok ()))` — landed successfully. -/
abbrev RpcStatusResult := Except Unit (Option (Except Unit Unit))

/-- The success test of line 187: `matches!(r, Ok(Some(Ok(()))))`. -/
def isLandedOk : RpcStatusResult → Bool
  | .ok (some (.ok ())) => true
  | _ => false

/-- Line 111-112: `transactions.iter().map(|tx| tx.signatures[0]).collect()`.
The Rust index `tx.signatures[0]` panics on an empty signature list; `none`
models that panic, `some sigs` the collected vector. -/
def bundleSignatures (transactions : List VersionedTransaction) :
    Option (List Signature) :=
  transactions.mapM fun tx => tx.signatures.head?

/-- Line 121-124: read `JITO_BUNDLE_RESULT_WAIT_SECONDS`, defaulting to `"5"`
when the variable is absent and to `5` when it does not parse as `u64`. -/
def waitSecondsFromEnv (envVar : Option String) : Nat :=
  ((envVar.getD "5").toNat?).getD 5

/-- An opaque wire packet (the output of the external codec
`proto_packet_from_versioned_tx` from `jito_protos::convert`). -/
structure Packet where
  bytes : String
deriving Repr, DecidableEq

/-- `bundle::Bundle` as constructed by the client: an optional header and the
ordered packet list. The header type is opaque — the client only ever writes
`header: None`. -/
structure Bundle where
  header : Option Unit
  packets : List Packet
deriving Repr, DecidableEq

/-- `searcher::SendBundleRequest`. -/
structure SendBundleRequest where
  bundle : Option Bundle
deriving Repr, DecidableEq

/-- The searcher-service client, reduced to an observation log: every unary
`send_bundle` call issued is appended to `calls`, and the engine's reply to
a submission is the opaque `uuid`. -/
structure SearcherServiceClient where
  calls : List SendBundleRequest
  uuid : String
deriving Repr, DecidableEq

/-- One unary `send_bundle` RPC: records the request and yields the engine's
acknowledgment uuid. -/
def sendBundle (client : SearcherServiceClient) (request : SendBundleRequest) :
    SearcherServiceClient × String :=
  ({ client with calls := client.calls ++ [request] }, client.uuid)

/-- `send_bundle_no_wait` (lines 200-225): encode every transaction into a
wire packet (in input order, via the external codec `enc`) and issue a single
`send_bundle` call whose bundle has a `None` header and carries all packets. -/
def send_bundle_no_wait (enc : VersionedTransaction → Packet)
    (transactions : List VersionedTransaction)
    (client : SearcherServiceClient) : SearcherServiceClient × String :=
  let packets := transactions.map enc
  sendBundle client { bundle := some { header := none, packets := packets } }

/-- The value `send_bundle_with_confirmation` resolves to, together with the
fallback status queries it issued. `outcome = .ok ()` is the `Ok(())` return;
`.error e` is the boxed `BundleRejectionError` return. `queried` lists, in
order, the signatures passed to `get_signature_status_with_commitment` on the
fallback path (empty when that path is skipped). -/
structure ConfirmResult where
  outcome : Except BundleRejectionError Unit
  queried : List Signature
deriving Repr, DecidableEq

/-- The fallback path (lines 180-197): one status query per collected
signature, in order; `Ok(())` only if every reply matches `Ok(Some(Ok(())))`,
otherwise the single generic internal error. -/
def fallbackConfirm (rpc : Signature → RpcStatusResult)
    (bundle_signatures : List Signature) : ConfirmResult :=
  if (bundle_signatures.map rpc).all isLandedOk then
    { outcome := .ok (), queried := bundle_signatures }
  else
    { outcome := .error (.InternalError
        "Searcher service did not provide bundle status in time"),
      queried := bundle_signatures }

/-- `send_bundle_with_confirmation` (lines 98-198).
`submit` is the engine's answer to the `send_bundle_no_wait` call
(`.error ()` = a gRPC `Status` propagated by `?`; the request construction
itself is `send_bundle_no_wait`, proved separately); `rpc` is the ledger
status source; `events`/`tail` describe the result stream;
`waitSeconds` is the parsed wait window.
The overall `none` models the panic of `tx.signatures[0]` on a transaction
with no signatures — note it is computed before the bundle is submitted.
On a `Rejected` resolution from the event loop the function returns the typed
error immediately with no status queries; whenever the loop instead falls
through, every collected signature is queried. -/
def send_bundle_with_confirmation
    (transactions : List VersionedTransaction)
    (rpc : Signature → RpcStatusResult)
    (submit : Except Unit Unit)
    (waitSeconds : Nat)
    (events : List TimedEvent) (tail : StreamTail) :
    Option (Except Unit ConfirmResult) :=
  match bundleSignatures transactions with
  | none => none
  | some bundle_signatures =>
    some <|
      match submit with
      | .error _ => .error ()
      | .ok _ =>
        .ok <|
          match (eventLoop (waitSeconds * 1000) events tail).exit with
          | .rejected e => { outcome := .error e, queried := [] }
          | .fallback => fallbackConfirm rpc bundle_signatures

/-- A transport channel as configured by `create_grpc_channel`:
the endpoint URI and, when present, the TLS configuration
(`some ()` = `ClientTlsConfig::new()`, the default trust settings). -/
structure Channel where
  uri : String
  tls : Option Unit
deriving Repr, DecidableEq

/-- `create_grpc_channel` (lines 90-96). `validUri` — Modelled from the spec:
the syntactic URI validation performed by the external
`Endpoint::from_shared` (tonic, not under `src/`); the spec calls a malformed
URL "a programming error (fail fast, not a recoverable error)", and the code
unwraps it with `.expect("invalid url")`, modelled as `none` (panic).
On a valid URL, TLS with the default configuration is attached exactly when
the URL starts with `"https"` (Rust `url.starts_with("https")`, modelled as
the character-sequence prefix test), otherwise the channel is plaintext. -/
def create_grpc_channel (validUri : String → Bool) (url : String) :
    Option Channel :=
  if validUri url then
    some { uri := url
           tls := if "https".data.isPrefixOf url.data then some () else none }
  else
    none

/-! ## Helper lemmas -/

theorem wrapSub64_zero {t : Nat} (ht : t < u64Mod) : wrapSub64 t 0 = t := by
  simp only [wrapSub64, u64Mod] at *
  omega

theorem bundleSignatures_nil : bundleSignatures [] = some [] := rfl

theorem bundleSignatures_cons (tx : VersionedTransaction)
    (txs : List VersionedTransaction) :
    bundleSignatures (tx :: txs)
      = (tx.signatures.head?).bind fun s =>
          (bundleSignatures txs).map fun sigs => s :: sigs := by
  simp only [bundleSignatures, List.mapM_cons]
  cases h : tx.signatures.head? with
  | none => simp [h]
  | some s =>
    cases hrest : List.mapM (fun tx => tx.signatures.head?) txs with
    | none => simp [h, hrest]
    | some rest => simp [h, hrest]

theorem bundleSignatures_length {txs : List VersionedTransaction}
    {sigs : List Signature} (h : bundleSignatures txs = some sigs) :
    sigs.length = txs.length := by
  induction txs generalizing sigs with
  | nil =>
    rw [bundleSignatures_nil] at h
    cases h
    rfl
  | cons tx txs ih =>
    rw [bundleSignatures_cons] at h
    cases hh : tx.signatures.head? with
    | none => simp [hh] at h
    | some s =>
      rw [hh] at h
      cases hrest : bundleSignatures txs with
      | none => simp [hrest] at h
      | some rest =>
        rw [hrest] at h
        simp only [Option.bind] at h
        cases h
        simp [ih hrest]

theorem bundleSignatures_getElem {txs : List VersionedTransaction}
    {sigs : List Signature} (h : bundleSignatures txs = some sigs) (i : Nat) :
    sigs[i]? = (txs[i]?).bind fun tx => tx.signatures.head? := by
  induction txs generalizing sigs i with
  | nil =>
    rw [bundleSignatures_nil] at h
    cases h
    simp
  | cons tx txs ih =>
    rw [bundleSignatures_cons] at h
    cases hh : tx.signatures.head? with
    | none => simp [hh] at h
    | some s =>
      rw [hh] at h
      cases hrest : bundleSignatures txs with
      | none => simp [hrest] at h
      | some rest =>
        rw [hrest] at h
        simp only [Option.bind] at h
        cases h
        cases i with
        | zero => simp [hh]
        | succ j => simpa using ih hrest j

theorem bundleSignatures_eq_none {txs : List VersionedTransaction}
    (h : ∃ tx ∈ txs, tx.signatures = []) : bundleSignatures txs = none := by
  induction txs with
  | nil => simp at h
  | cons tx txs ih =>
    rw [bundleSignatures_cons]
    rcases h with ⟨t, ht, hemp⟩
    rcases List.mem_cons.mp ht with heq | hmem
    · subst heq
      simp [hemp]
    · cases hh : tx.signatures.head? with
      | none => simp [hh]
      | some s => simp [hh, ih ⟨t, hmem, hemp⟩]

theorem bundleSignatures_isSome {txs : List VersionedTransaction}
    (h : ∀ tx ∈ txs, tx.signatures ≠ []) :
    ∃ sigs, bundleSignatures txs = some sigs := by
  induction txs with
  | nil => exact ⟨[], rfl⟩
  | cons tx txs ih =>
    rcases ih (fun t ht => h t (List.mem_cons_of_mem _ ht)) with ⟨rest, hrest⟩
    cases hh : tx.signatures with
    | nil => exact absurd hh (h tx (List.mem_cons_self _ _))
    | cons s ss =>
      refine ⟨s :: rest, ?_⟩
      rw [bundleSignatures_cons, hh]
      simp [hrest]

theorem all_map_isLandedOk (rpc : Signature → RpcStatusResult)
    (sigs : List Signature) :
    ((sigs.map rpc).all isLandedOk = true) ↔
      ∀ s ∈ sigs, isLandedOk (rpc s) = true := by
  simp [List.all_eq_true]

/-! ## Claim theorems -/

/-- C1: whenever the result stream yields, within the remaining budget, a
`Rejected` event carrying one of the four recognized reasons, the event loop
resolves immediately with the matching typed `BundleRejectionError` variant
(first conjunct, one case per reason); and whenever the event loop resolves
`rejected e`, `send_bundle_with_confirmation` returns that error with an
empty fallback-query list: zero status queries are issued (second conjunct). -/
theorem rejection_short_circuits_no_fallback :
    (∀ (t : Nat) (ev : TimedEvent) (rest : List TimedEvent) (tail : StreamTail),
      ev.arrival ≤ t →
      (∀ a l m, ev.payload = .ok { result := some (.Rejected
            { reason := some (.StateAuctionBidRejected a l m) }) } →
        (eventLoop t (ev :: rest) tail).exit
          = .rejected (.StateAuctionBidRejected a l))
      ∧ (∀ a l m, ev.payload = .ok { result := some (.Rejected
            { reason := some (.WinningBatchBidRejected a l m) }) } →
        (eventLoop t (ev :: rest) tail).exit
          = .rejected (.WinningBatchBidRejected a l))
      ∧ (∀ s m, ev.payload = .ok { result := some (.Rejected
            { reason := some (.SimulationFailure s m) }) } →
        (eventLoop t (ev :: rest) tail).exit = .rejected (.SimulationFailure s m))
      ∧ (∀ m, ev.payload = .ok { result := some (.Rejected
            { reason := some (.InternalError m) }) } →
        (eventLoop t (ev :: rest) tail).exit = .rejected (.InternalError m)))
    ∧ (∀ (transactions : List VersionedTransaction)
        (rpc : Signature → RpcStatusResult) (waitSeconds : Nat)
        (events : List TimedEvent) (tail : StreamTail)
        (e : BundleRejectionError) (sigs : List Signature),
      bundleSignatures transactions = some sigs →
      (eventLoop (waitSeconds * 1000) events tail).exit = .rejected e →
      send_bundle_with_confirmation transactions rpc (.ok ()) waitSeconds events tail
        = some (.ok { outcome := .error e, queried := [] })) := by
  constructor
  · intro t ev rest tail harr
    refine ⟨fun a l m hpay => ?_, fun a l m hpay => ?_,
            fun s m hpay => ?_, fun m hpay => ?_⟩ <;>
      simp [eventLoop, harr, hpay, classifyResult, mapRejectedReason]
  · intro transactions rpc waitSeconds events tail e sigs hsigs hloop
    simp only [send_bundle_with_confirmation, hsigs, hloop]

/-- Witness for C1: a `SimulationFailure` rejection arriving after 100 ms of a
5000 ms budget resolves the loop with the matching typed error, and the whole
call returns that error with zero fallback queries. -/
theorem rejection_short_circuits_no_fallback_witness :
    (eventLoop 5000
        [⟨100, 0, .ok ⟨some (.Rejected ⟨some
            (.SimulationFailure "abc" (some "insufficient funds"))⟩)⟩⟩]
        .silent).exit
      = .rejected (.SimulationFailure "abc" (some "insufficient funds"))
    ∧ send_bundle_with_confirmation [⟨["sigA"]⟩]
        (fun _ => .ok (some (.ok ()))) (.ok ()) 5
        [⟨100, 0, .ok ⟨some (.Rejected ⟨some
            (.SimulationFailure "abc" (some "insufficient funds"))⟩)⟩⟩]
        .silent
      = some (.ok ⟨.error (.SimulationFailure "abc" (some "insufficient funds")), []⟩) :=
  ⟨(rejection_short_circuits_no_fallback.1 5000
      ⟨100, 0, .ok ⟨some (.Rejected ⟨some
          (.SimulationFailure "abc" (some "insufficient funds"))⟩)⟩⟩
      [] .silent (by decide)).2.2.1 "abc" (some "insufficient funds") rfl,
   rejection_short_circuits_no_fallback.2 [⟨["sigA"]⟩]
      (fun _ => .ok (some (.ok ()))) 5
      [⟨100, 0, .ok ⟨some (.Rejected ⟨some
          (.SimulationFailure "abc" (some "insufficient funds"))⟩)⟩⟩]
      .silent (.SimulationFailure "abc" (some "insufficient funds")) ["sigA"] rfl rfl⟩

/-- C2: whenever the event loop exits without a `Rejected` resolution, the
call queries the status of every collected signature and resolves `Ok` if and
only if every query reports `Ok(Some(Ok(())))`; in every other case (an
errored query, a missing status, or a transaction error — and regardless of
which) it returns exactly the one generic
`InternalError "Searcher service did not provide bundle status in time"`. -/
theorem fallback_all_or_nothing
    (transactions : List VersionedTransaction) (rpc : Signature → RpcStatusResult)
    (waitSeconds : Nat) (events : List TimedEvent) (tail : StreamTail)
    (sigs : List Signature)
    (hsigs : bundleSignatures transactions = some sigs)
    (hloop : (eventLoop (waitSeconds * 1000) events tail).exit = .fallback) :
    ∃ res : ConfirmResult,
      send_bundle_with_confirmation transactions rpc (.ok ()) waitSeconds events tail
        = some (.ok res)
      ∧ res.queried = sigs
      ∧ (res.outcome = .ok () ↔ ∀ s ∈ sigs, isLandedOk (rpc s) = true)
      ∧ ((∃ s ∈ sigs, isLandedOk (rpc s) = false) →
          res.outcome = .error (.InternalError
            "Searcher service did not provide bundle status in time")) := by
  refine ⟨fallbackConfirm rpc sigs, ?_, ?_, ?_, ?_⟩
  · simp only [send_bundle_with_confirmation, hsigs, hloop]
  · unfold fallbackConfirm
    split <;> rfl
  · unfold fallbackConfirm
    split
    · rename_i hall
      rw [all_map_isLandedOk] at hall
      exact iff_of_true rfl hall
    · rename_i hall
      rw [all_map_isLandedOk] at hall
      constructor
      · intro hcontra
        exact absurd hcontra (by simp)
      · intro hforall
        exact absurd hforall hall
  · intro hbad
    unfold fallbackConfirm
    split
    · rename_i hall
      rw [all_map_isLandedOk] at hall
      rcases hbad with ⟨s, hs, hfalse⟩
      exact absurd (hall s hs) (by simp [hfalse])
    · rfl

/-- Witness for C2: with a silent stream and one of two transactions
reporting no status, the call queries both signatures and returns the
generic internal error. -/
theorem fallback_all_or_nothing_witness :
    ∃ res : ConfirmResult,
      send_bundle_with_confirmation
        [⟨["sigA"]⟩, ⟨["sigB"]⟩]
        (fun s => if s = "sigA" then .ok (some (.ok ())) else .ok none)
        (.ok ()) 5 [] .silent
        = some (.ok res)
      ∧ res.queried = ["sigA", "sigB"]
      ∧ (res.outcome = .ok () ↔ ∀ s ∈ ["sigA", "sigB"],
          isLandedOk ((fun s => if s = "sigA" then .ok (some (.ok ())) else .ok none) s) = true)
      ∧ ((∃ s ∈ ["sigA", "sigB"],
          isLandedOk ((fun s => if s = "sigA" then .ok (some (.ok ())) else .ok none) s) = false) →
          res.outcome = .error (.InternalError
            "Searcher service did not provide bundle status in time")) :=
  fallback_all_or_nothing
    [⟨["sigA"]⟩, ⟨["sigB"]⟩]
    (fun s => if s = "sigA" then .ok (some (.ok ())) else .ok none)
    5 [] .silent ["sigA", "sigB"] rfl rfl

/-- C3 (code evidence at the failing input): after an iteration that spent
4000 ms awaiting an `Accepted` event out of a 5000 ms budget, `time_left` is
still 5000 — the awaiting span is never charged against the budget, because
`Instant::now()` is taken only after the event has arrived — and the loop as
a whole runs for 9000 ms, past the 5000 ms window. Moreover, when the
processing span exceeds the remaining budget (20 ms against 10 ms), the `u64`
subtraction wraps to `2^64 - 10` instead of stopping at zero. -/
theorem budget_not_charged_for_await :
    ((eventLoop 5000 [⟨4000, 0, .ok ⟨some (.Accepted 10 "validator")⟩⟩]
        .silent).timeLeft = 5000)
    ∧ ((eventLoop 5000 [⟨4000, 0, .ok ⟨some (.Accepted 10 "validator")⟩⟩]
        .silent).elapsed = 9000)
    ∧ 5000 < (eventLoop 5000 [⟨4000, 0, .ok ⟨some (.Accepted 10 "validator")⟩⟩]
        .silent).elapsed
    ∧ ((eventLoop 10 [⟨0, 20, .ok ⟨some (.Accepted 10 "validator")⟩⟩]
        .silent).timeLeft = u64Mod - 10) := by
  refine ⟨rfl, rfl, by decide, rfl⟩

/-- C4: on a stream that never emits an event and never closes, the event
loop times out and exits to the fallback path after exactly the remaining
budget — it never waits forever (first conjunct); at the call level, a silent
stream sends the whole call to the fallback status queries (second
conjunct). -/
theorem silent_stream_bounded_exit :
    (∀ timeLeft : Nat,
      (eventLoop timeLeft [] .silent).exit = .fallback
      ∧ (eventLoop timeLeft [] .silent).elapsed ≤ timeLeft)
    ∧ (∀ (transactions : List VersionedTransaction)
        (rpc : Signature → RpcStatusResult)
        (waitSeconds : Nat) (sigs : List Signature),
      bundleSignatures transactions = some sigs →
      send_bundle_with_confirmation transactions rpc (.ok ()) waitSeconds [] .silent
        = some (.ok (fallbackConfirm rpc sigs))) := by
  constructor
  · intro timeLeft
    exact ⟨rfl, le_refl _⟩
  · intro transactions rpc waitSeconds sigs hsigs
    simp only [send_bundle_with_confirmation, hsigs]
    rfl

/-- Witness for C4: a one-transaction bundle against a silent stream goes to
the fallback path. -/
theorem silent_stream_bounded_exit_witness :
    send_bundle_with_confirmation [⟨["sigA"]⟩]
        (fun _ => .ok (some (.ok ()))) (.ok ()) 1 [] .silent
      = some (.ok (fallbackConfirm (fun _ => .ok (some (.ok ()))) ["sigA"])) :=
  silent_stream_bounded_exit.2 [⟨["sigA"]⟩] (fun _ => .ok (some (.ok ()))) 1
    ["sigA"] rfl

/-- C5: the signatures queried on the fallback path are exactly the submitted
transactions' identities — one per transaction, in submission order, each
being the transaction's first signature — with no additions or omissions. -/
theorem fallback_queries_match_submitted
    (transactions : List VersionedTransaction) (rpc : Signature → RpcStatusResult)
    (waitSeconds : Nat) (events : List TimedEvent) (tail : StreamTail)
    (sigs : List Signature)
    (hsigs : bundleSignatures transactions = some sigs)
    (hloop : (eventLoop (waitSeconds * 1000) events tail).exit = .fallback) :
    sigs.length = transactions.length
    ∧ (∀ i : Nat, sigs[i]? = (transactions[i]?).bind fun tx => tx.signatures.head?)
    ∧ ∃ res : ConfirmResult,
        send_bundle_with_confirmation transactions rpc (.ok ()) waitSeconds events tail
          = some (.ok res)
        ∧ res.queried = sigs := by
  refine ⟨bundleSignatures_length hsigs,
          fun i => bundleSignatures_getElem hsigs i,
          ⟨fallbackConfirm rpc sigs, ?_, ?_⟩⟩
  · simp only [send_bundle_with_confirmation, hsigs, hloop]
  · unfold fallbackConfirm
    split <;> rfl

/-- Witness for C5: two transactions (the first carrying two signatures)
yield exactly their two first signatures, in order, as the fallback
queries. -/
theorem fallback_queries_match_submitted_witness :
    (["a1", "b1"] : List Signature).length
        = ([⟨["a1", "a2"]⟩, ⟨["b1"]⟩] : List VersionedTransaction).length
    ∧ (∀ i : Nat, (["a1", "b1"] : List Signature)[i]?
        = (([⟨["a1", "a2"]⟩, ⟨["b1"]⟩] : List VersionedTransaction)[i]?).bind
            fun tx => tx.signatures.head?)
    ∧ ∃ res : ConfirmResult,
        send_bundle_with_confirmation [⟨["a1", "a2"]⟩, ⟨["b1"]⟩]
            (fun _ => .ok none) (.ok ()) 1 [] .silent
          = some (.ok res)
        ∧ res.queried = ["a1", "b1"] :=
  fallback_queries_match_submitted [⟨["a1", "a2"]⟩, ⟨["b1"]⟩]
    (fun _ => .ok none) 1 [] .silent ["a1", "b1"] rfl rfl

/-- C6: `send_bundle_no_wait` issues exactly one unary `send_bundle` call,
whose bundle has a `None` header and carries one wire packet per transaction,
in the input order (the packet at index `i` is the encoding of the
transaction at index `i`), with no splitting or batching. -/
theorem submit_single_ordered_bundle
    (enc : VersionedTransaction → Packet)
    (transactions : List VersionedTransaction)
    (client : SearcherServiceClient) :
    (send_bundle_no_wait enc transactions client).1.calls
      = client.calls ++ [⟨some ⟨none, transactions.map enc⟩⟩]
    ∧ (transactions.map enc).length = transactions.length
    ∧ ∀ i : Nat, (transactions.map enc)[i]? = (transactions[i]?).map enc := by
  refine ⟨rfl, by simp, fun i => by simp⟩

/-- C7: the event loop never resolves on an `Accepted` event — it continues
with the rest of the stream, the budget reduced only by the event's
processing span (first conjunct); with instantaneous processing the exit
resolution is invariant under receiving any number of `Accepted` events
(second conjunct). -/
theorem accepted_events_not_resolving :
    (∀ (t : Nat) (ev : TimedEvent) (rest : List TimedEvent) (tail : StreamTail)
        (slot : Nat) (v : String),
      ev.arrival ≤ t →
      ev.payload = .ok ⟨some (.Accepted slot v)⟩ →
      (eventLoop t (ev :: rest) tail).exit
          = (eventLoop (wrapSub64 t ev.proc) rest tail).exit
        ∧ (eventLoop t (ev :: rest) tail).timeLeft
          = (eventLoop (wrapSub64 t ev.proc) rest tail).timeLeft)
    ∧ (∀ (t arrival slot : Nat) (v : String) (n : Nat)
        (rest : List TimedEvent) (tail : StreamTail),
      t < u64Mod → arrival ≤ t →
      (eventLoop t
          (List.replicate n ⟨arrival, 0, .ok ⟨some (.Accepted slot v)⟩⟩ ++ rest)
          tail).exit
        = (eventLoop t rest tail).exit) := by
  constructor
  · intro t ev rest tail slot v harr hpay
    constructor <;> simp [eventLoop, harr, hpay, classifyResult]
  · intro t arrival slot v n rest tail ht harr
    induction n with
    | zero => rfl
    | succ k ih =>
      rw [List.replicate_succ, List.cons_append]
      simp only [eventLoop, harr, if_pos, classifyResult, wrapSub64_zero ht]
      exact ih

/-- Witness for C7: a 7 ms-to-process `Accepted` event and three
instantaneous `Accepted` events each leave the resolution unchanged. -/
theorem accepted_events_not_resolving_witness :
    ((eventLoop 5000 [⟨100, 7, .ok ⟨some (.Accepted 3 "v")⟩⟩] .silent).exit
        = (eventLoop (wrapSub64 5000 7) [] .silent).exit
      ∧ (eventLoop 5000 [⟨100, 7, .ok ⟨some (.Accepted 3 "v")⟩⟩] .silent).timeLeft
        = (eventLoop (wrapSub64 5000 7) [] .silent).timeLeft)
    ∧ (eventLoop 5000
          (List.replicate 3 ⟨100, 0, .ok ⟨some (.Accepted 3 "v")⟩⟩ ++ [])
          .silent).exit
        = (eventLoop 5000 [] .silent).exit :=
  ⟨accepted_events_not_resolving.1 5000 ⟨100, 7, .ok ⟨some (.Accepted 3 "v")⟩⟩
      [] .silent 3 "v" (by decide) rfl,
   accepted_events_not_resolving.2 5000 100 3 "v" 3 [] .silent (by decide)
      (by decide)⟩

/-- C8: on a syntactically valid URL, the channel carries the default TLS
configuration exactly when the URL starts with the secure scheme, and is
plaintext otherwise; a malformed URL is a panic (`none`), not a recoverable
error. -/
theorem scheme_selects_transport (validUri : String → Bool) (url : String) :
    (validUri url = true → "https".data.isPrefixOf url.data = true →
      create_grpc_channel validUri url = some ⟨url, some ()⟩)
    ∧ (validUri url = true → "https".data.isPrefixOf url.data = false →
      create_grpc_channel validUri url = some ⟨url, none⟩)
    ∧ (validUri url = false → create_grpc_channel validUri url = none) := by
  refine ⟨fun hv hs => ?_, fun hv hs => ?_, fun hv => ?_⟩ <;>
    simp [create_grpc_channel, hv, *]

/-- Witness for C8: an `https` URL gets TLS, an `http` URL is plaintext, and
an invalid URL panics. -/
theorem scheme_selects_transport_witness :
    create_grpc_channel (fun _ => true) "https://engine.example"
      = some ⟨"https://engine.example", some ()⟩
    ∧ create_grpc_channel (fun _ => true) "http://engine.example"
      = some ⟨"http://engine.example", none⟩
    ∧ create_grpc_channel (fun _ => false) "not a url" = none :=
  ⟨(scheme_selects_transport (fun _ => true) "https://engine.example").1 rfl
      (by decide),
   (scheme_selects_transport (fun _ => true) "http://engine.example").2.1 rfl
      (by decide),
   (scheme_selects_transport (fun _ => false) "not a url").2.2 rfl⟩

/-- C9: a transaction with an empty signature list makes
`send_bundle_with_confirmation` panic at `tx.signatures[0]` (`none`); when
every transaction carries at least one signature the indexing is safe and
the call produces a value. -/
theorem empty_signature_list_panics
    (transactions : List VersionedTransaction) (rpc : Signature → RpcStatusResult)
    (submit : Except Unit Unit) (waitSeconds : Nat)
    (events : List TimedEvent) (tail : StreamTail) :
    ((∃ tx ∈ transactions, tx.signatures = []) →
      send_bundle_with_confirmation transactions rpc submit waitSeconds events tail
        = none)
    ∧ ((∀ tx ∈ transactions, tx.signatures ≠ []) →
      ∃ r, send_bundle_with_confirmation transactions rpc submit waitSeconds events tail
        = some r) := by
  constructor
  · intro h
    simp only [send_bundle_with_confirmation, bundleSignatures_eq_none h]
  · intro h
    rcases bundleSignatures_isSome h with ⟨sigs, hsigs⟩
    simp only [send_bundle_with_confirmation, hsigs]
    exact ⟨_, rfl⟩

/-- Witness for C9: a signatureless transaction panics; a signed one does
not. -/
theorem empty_signature_list_panics_witness :
    send_bundle_with_confirmation [⟨[]⟩] (fun _ => .ok none) (.ok ()) 5 [] .silent
      = none
    ∧ ∃ r, send_bundle_with_confirmation [⟨["s"]⟩] (fun _ => .ok none) (.ok ()) 5
        [] .silent = some r :=
  ⟨(empty_signature_list_panics [⟨[]⟩] (fun _ => .ok none) (.ok ()) 5 []
      .silent).1 ⟨⟨[]⟩, by simp, rfl⟩,
   (empty_signature_list_panics [⟨["s"]⟩] (fun _ => .ok none) (.ok ()) 5 []
      .silent).2 (by simp)⟩

/-- C10: a `Rejected` event whose reason is absent, or is not one of the
four recognized variants, produces no resolution and no error — the loop
continues exactly as it does on an informational event. -/
theorem unrecognized_rejection_ignored :
    (classifyResult ⟨some (.Rejected ⟨none⟩)⟩ = none)
    ∧ (classifyResult ⟨some (.Rejected ⟨some .Unrecognized⟩)⟩ = none)
    ∧ (∀ (t : Nat) (ev : TimedEvent) (rest : List TimedEvent) (tail : StreamTail)
        (reason : Option Reason),
      ev.arrival ≤ t →
      ev.payload = .ok ⟨some (.Rejected ⟨reason⟩)⟩ →
      mapRejectedReason reason = none →
      (eventLoop t (ev :: rest) tail).exit
        = (eventLoop (wrapSub64 t ev.proc) rest tail).exit) := by
  refine ⟨rfl, rfl, ?_⟩
  intro t ev rest tail reason harr hpay hmap
  simp [eventLoop, harr, hpay, classifyResult, hmap]

/-- Witness for C10: a reasonless `Rejected` event after 50 ms is ignored
and waiting continues. -/
theorem unrecognized_rejection_ignored_witness :
    (eventLoop 5000 [⟨50, 2, .ok ⟨some (.Rejected ⟨none⟩)⟩⟩] .silent).exit
      = (eventLoop (wrapSub64 5000 2) [] .silent).exit :=
  unrecognized_rejection_ignored.2.2 5000 ⟨50, 2, .ok ⟨some (.Rejected ⟨none⟩)⟩⟩
    [] .silent none (by decide) rfl rfl

end SearcherClient
